import Mathlib

/-!
# Shallow embedding of `nixos-ami-upload` (src/main.rs)

This file embeds the region-resolution and replication-orchestration core of
the `nixos-ami-upload` tool. The program reads image metadata, validates it,
resolves a set of target regions, uploads a snapshot and registers an AMI in a
home region, then fans copies out to every other resolved region, collecting a
region-to-AMI map.

Remote services (EBS upload, EC2, SSM) are modelled by an `Env` of oracle
responses; every remote request the program issues is recorded in a trace of
`RemoteCall` values, and every distinct failure site of the Rust code is a
distinct `RunError` constructor (`RunError.panic` models `expect`/`unwrap`
aborts, the other constructors model `?`-propagated `anyhow` errors).
Machine integers (`u64`) are `Nat` with an explicit `% 2 ^ 64` where the code
can overflow.
-/

/-- A parsed AWS region, identified by its canonical lowercase name.
Models `rusoto_core::region::Region` (which compares by variant, i.e. by
canonical name). -/
structure Region where
  name : String
deriving DecidableEq, Repr

/-- The region names recognised by `rusoto_core::region::Region::from_str`
(restricted here to the canonical dashed spellings of the standard regions). -/
def known_region_names : List String :=
  ["af-south-1", "ap-east-1", "ap-northeast-1", "ap-northeast-2",
   "ap-northeast-3", "ap-south-1", "ap-southeast-1", "ap-southeast-2",
   "ca-central-1", "cn-north-1", "cn-northwest-1", "eu-central-1",
   "eu-north-1", "eu-south-1", "eu-west-1", "eu-west-2", "eu-west-3",
   "me-south-1", "sa-east-1", "us-east-1", "us-east-2", "us-west-1",
   "us-west-2", "us-gov-east-1", "us-gov-west-1"]

/-- The region a successfully parsed string denotes. -/
def region_of (s : String) : Region := ⟨s⟩

/-- Models `Region::from_str`, restricted to the canonical lowercase dashed
names: accepts exactly the known region names, failing on anything else. -/
def region_from_str (s : String) : Except String Region :=
  if s ∈ known_region_names then Except.ok (region_of s)
  else Except.error ("not a valid AWS region: " ++ s)

/-- Equality on `Except` values is decidable when it is on both sides. -/
instance exceptDecEq {ε α : Type} [DecidableEq ε] [DecidableEq α] :
    DecidableEq (Except ε α) := fun x y =>
  match x, y with
  | Except.ok a, Except.ok b =>
    if h : a = b then isTrue (by rw [h])
    else isFalse (by simp [h])
  | Except.error a, Except.error b =>
    if h : a = b then isTrue (by rw [h])
    else isFalse (by simp [h])
  | Except.ok _, Except.error _ => isFalse (fun hc => Except.noConfusion hc)
  | Except.error _, Except.ok _ => isFalse (fun hc => Except.noConfusion hc)

/-- Models Rust `str::split` on a comma, structurally on the character list:
the empty string yields one empty token, and every comma opens a new token
(so `a,,b` yields an empty middle token). -/
def split_commas_chars : List Char → List (List Char)
  | [] => [[]]
  | c :: rest =>
    let r := split_commas_chars rest
    if c = ',' then [] :: r
    else
      match r with
      | [] => [[c]]
      | g :: gs => (c :: g) :: gs

/-- Rust `args.regions.split(",")` as a `String` operation. -/
def split_commas (s : String) : List String :=
  (split_commas_chars s.data).map (fun cs => String.mk cs)

/-- One SSM `GetParametersByPath` response page: an optional parameter list
(the region names; `none` models an absent `parameters` field, which the code
`unwrap`s) and an optional continuation token. -/
structure SsmPage where
  parameters : Option (List String)
  next_token : Option String
deriving DecidableEq, Repr

/-- A remote request issued by the program, in issue order. -/
inductive RemoteCall where
  | getParametersByPath (path : String) (next_token : Option String)
  | uploadSnapshot (region : Region) (description : Option String)
  | waitSnapshot (region : Region) (snapshot_id : String)
  | registerImage (region : Region) (name : String) (volume_size : Nat)
      (snapshot_id : String)
  | createTags (region : Region) (resources : List String)
      (key : String) (value : String)
  | copyImage (region : Region) (name : String) (source_image_id : String)
      (source_region : String)
deriving DecidableEq, Repr

/-- The distinct failure modes of `main_`. `panic` models a Rust
`expect`/`unwrap` abort; the rest model `?`-propagated errors, named after
the error taxonomy of the design document. -/
inductive RunError where
  | unsupportedSystem (system : String)
  | badDiskHeader
  | noRegionsSpecified
  | regionParseError
  | regionDiscoveryFailed (msg : String)
  | envExhausted
  | uploadFailed (msg : String)
  | waitFailed (msg : String)
  | tagFailed (msg : String)
  | panic (msg : String)
deriving DecidableEq, Repr

/-- Oracle for the remote services: the ambient default region, the local
disk-header check outcome, the SSM response sequence (the i-th element
answers the i-th page request), and the outcome of each EBS/EC2 operation.
`registerResult` and `copyResult` yield the optional `image_id` field of the
response (the code `unwrap`s it). -/
structure Env where
  defaultRegion : Region
  diskHeaderOk : Bool
  ssmResponses : List (Except String SsmPage)
  uploadResult : Except String String
  waitResult : Except String Unit
  registerResult : Except String (Option String)
  tagHomeResult : Except String Unit
  copyResult : Region → Except String (Option String)
  tagCopyResult : Region → Except String Unit

/-- The metadata record parsed from `nix-support/image-info.json`
(struct `ImageInfo` in the source; `logical_bytes` is a `u64`). -/
structure ImageInfo where
  label : String
  system : String
  logical_bytes : Nat
  file : String
deriving DecidableEq, Repr

/-- The command-line options (struct `Opt` in the source) that affect the
orchestration core. -/
structure Opt where
  name : Option String
  regions : String
  root_size : Option Nat
deriving DecidableEq, Repr

/-- The target system accepted by the validation at src/main.rs:132. -/
def x86_system : String := "x86_64-linux"

/-- The SSM parameter path queried by `resolve_all_regions`. -/
def ssm_path : String := "/aws/service/global-infrastructure/services/ec2/regions"

/-- The key of the descriptive tag applied to every registered image. -/
def tag_key : String := "NixOSName"

/-- `1024 * 1024 * 1024`, the `bytes_in_gb` constant of src/main.rs:205. -/
def bytes_in_gb : Nat := 1024 * 1024 * 1024

/-- `2 ^ 64`, the modulus of Rust `u64` arithmetic. -/
def u64_size : Nat := 2 ^ 64

/-- Root volume size in GB (src/main.rs:201-208): the `--root-size` override
verbatim when present, otherwise `(logical_bytes + bytes_in_gb - 1) /
bytes_in_gb` in wrapping `u64` arithmetic. -/
def ami_gbs (root_size : Option Nat) (logical_bytes : Nat) : Nat :=
  match root_size with
  | some s => s
  | none => ((logical_bytes + bytes_in_gb - 1) % u64_size) / bytes_in_gb

/-- The derived image name `NixOS-{label}-{system}` (src/main.rs:212). -/
def nixos_name (info : ImageInfo) : String :=
  "NixOS-" ++ info.label ++ "-" ++ info.system

/-- The display name: caller override or the derived name (src/main.rs:213). -/
def ami_name (name_arg : Option String) (info : ImageInfo) : String :=
  name_arg.getD (nixos_name info)

/-- Parses a list of region strings, short-circuiting at the first failure
(models `collect::<Result<Vec<_>>>` over `Region::from_str`). -/
def parse_regions : List String → Except RunError (List Region)
  | [] => Except.ok []
  | s :: rest =>
    match region_from_str s with
    | Except.error _ => Except.error RunError.regionParseError
    | Except.ok r => (parse_regions rest).map (fun rs => r :: rs)

/-- The pagination loop of `resolve_all_regions` (src/main.rs:330-354),
threading the continuation token. Each iteration issues one
`GetParametersByPath` request (recorded in the trace) and consumes the next
oracle response; an error response, an absent `parameters` field, or an
unparsable region aborts with no partial result; an absent continuation token
ends the loop. -/
def resolve_all_regions_go (tok : Option String) :
    List (Except String SsmPage) →
    Except RunError (List Region) × List RemoteCall
  | [] => (Except.error RunError.envExhausted,
      [RemoteCall.getParametersByPath ssm_path tok])
  | resp :: rest =>
    let call := RemoteCall.getParametersByPath ssm_path tok
    match resp with
    | Except.error e => (Except.error (RunError.regionDiscoveryFailed e), [call])
    | Except.ok page =>
      match page.parameters with
      | none => (Except.error (RunError.panic "parameters was None"), [call])
      | some vals =>
        match parse_regions vals with
        | Except.error e => (Except.error e, [call])
        | Except.ok rs =>
          match page.next_token with
          | none => (Except.ok rs, [call])
          | some t =>
            let res := resolve_all_regions_go (some t) rest
            (res.1.map (fun more => rs ++ more), call :: res.2)

/-- `resolve_all_regions` (src/main.rs:326-355): starts the pagination loop
with no token, against an SSM client in the default region. -/
def resolve_all_regions (env : Env) :
    Except RunError (List Region) × List RemoteCall :=
  resolve_all_regions_go none env.ssmResponses

/-- Region resolution (src/main.rs:147-170): split the `--regions` argument on
commas; an empty list is rejected; the token `all` as first element triggers
directory discovery with the ambient default region as home region; otherwise
every token must parse and the first parsed region becomes the home region.
Returns the home region and the full resolved list. -/
def region_resolve (env : Env) (regions_arg : String) :
    Except RunError (Region × List Region) × List RemoteCall :=
  match split_commas regions_arg with
  | [] => (Except.error RunError.noRegionsSpecified, [])
  | r0 :: rest =>
    if r0 = "all" then
      match resolve_all_regions env with
      | (Except.error e, tr) => (Except.error e, tr)
      | (Except.ok resolved, tr) => (Except.ok (env.defaultRegion, resolved), tr)
    else
      match parse_regions (r0 :: rest) with
      | Except.error e => (Except.error e, [])
      | Except.ok [] => (Except.error (RunError.panic "index out of bounds"), [])
      | Except.ok (r :: rs) => (Except.ok (r, r :: rs), [])

/-- The copy-target set (src/main.rs:173-176): the resolved regions with every
occurrence of the home region filtered out. -/
def copy_regions (resolved : List Region) (initial_region : Region) :
    List Region :=
  resolved.filter (fun f => f ≠ initial_region)

/-- The home-region publish sequence (src/main.rs:178-277): upload the
snapshot, wait for it, register the AMI (root volume size from `ami_gbs`,
display name from `ami_name`), tag it with the derived name. Yields the new
AMI id. `expect`/`unwrap` sites surface as `RunError.panic`. -/
def home_publish (env : Env) (name_arg : Option String)
    (root_size_arg : Option Nat) (info : ImageInfo)
    (initial_region : Region) :
    Except RunError String × List RemoteCall :=
  let callU := RemoteCall.uploadSnapshot initial_region (some info.label)
  match env.uploadResult with
  | Except.error e => (Except.error (RunError.uploadFailed e), [callU])
  | Except.ok snapshot_id =>
    let callW := RemoteCall.waitSnapshot initial_region snapshot_id
    match env.waitResult with
    | Except.error e => (Except.error (RunError.waitFailed e), [callU, callW])
    | Except.ok _ =>
      let gbs := ami_gbs root_size_arg info.logical_bytes
      let callR := RemoteCall.registerImage initial_region
        (ami_name name_arg info) gbs snapshot_id
      match env.registerResult with
      | Except.error _ =>
        (Except.error (RunError.panic "could not register ami"),
          [callU, callW, callR])
      | Except.ok none =>
        (Except.error (RunError.panic "image_id was None"),
          [callU, callW, callR])
      | Except.ok (some init_ami_id) =>
        let callT := RemoteCall.createTags initial_region [init_ami_id]
          tag_key (nixos_name info)
        match env.tagHomeResult with
        | Except.error e =>
          (Except.error (RunError.tagFailed e), [callU, callW, callR, callT])
        | Except.ok _ => (Except.ok init_ami_id, [callU, callW, callR, callT])

/-- `HashMap::insert` on the region-to-AMI map, modelled on an association
list: replaces the value at an existing key, else appends. -/
def insert_ami : List (String × String) → String → String →
    List (String × String)
  | [], k, v => [(k, v)]
  | (k0, v0) :: rest, k, v =>
    if k0 = k then (k, v) :: rest else (k0, v0) :: insert_ami rest k v

/-- The replication fan-out loop (src/main.rs:288-314). For each copy region
in order: issue `copy_image` (failure or an absent `image_id` is an
`expect`/`unwrap` panic that aborts the whole run, leaving the remaining
regions unattempted), record the new id in the map, then issue `create_tags`
naming `init_ami_id` — the home image id, exactly as the source does — whose
failure `?`-aborts the run. -/
def fan_out (env : Env) (an : String) (init_ami_id : String)
    (initial_region : Region) (nm : String) :
    List Region → List (String × String) →
    Except RunError (List (String × String)) × List RemoteCall
  | [], amis => (Except.ok amis, [])
  | region :: rest, amis =>
    let callC := RemoteCall.copyImage region an init_ami_id initial_region.name
    match env.copyResult region with
    | Except.error _ =>
      (Except.error (RunError.panic "could not copy ami to region"), [callC])
    | Except.ok none =>
      (Except.error (RunError.panic "image_id was None"), [callC])
    | Except.ok (some image_id) =>
      let amis2 := insert_ami amis region.name image_id
      let callT := RemoteCall.createTags region [init_ami_id] tag_key nm
      match env.tagCopyResult region with
      | Except.error e => (Except.error (RunError.tagFailed e), [callC, callT])
      | Except.ok _ =>
        let res := fan_out env an init_ami_id initial_region nm rest amis2
        (res.1, callC :: callT :: res.2)

/-- The whole run `main_` (src/main.rs:106-324) after the local metadata file
has been read: validate the target system and the disk header (both local, no
remote call), resolve regions, publish in the home region, seed the output
map with the home entry, fan out to the copy regions. Returns the final
region-to-AMI map and the full remote-call trace. -/
def main_ (env : Env) (args : Opt) (info : ImageInfo) :
    Except RunError (List (String × String)) × List RemoteCall :=
  if info.system = x86_system then
    if env.diskHeaderOk then
      match region_resolve env args.regions with
      | (Except.error e, tr1) => (Except.error e, tr1)
      | (Except.ok (initial_region, resolved), tr1) =>
        let copies := copy_regions resolved initial_region
        match home_publish env args.name args.root_size info initial_region with
        | (Except.error e, tr2) => (Except.error e, tr1 ++ tr2)
        | (Except.ok init_ami_id, tr2) =>
          let amis0 := insert_ami [] initial_region.name init_ami_id
          let res := fan_out env (ami_name args.name info) init_ami_id
            initial_region (nixos_name info) copies amis0
          (res.1, tr1 ++ tr2 ++ res.2)
    else (Except.error RunError.badDiskHeader, [])
  else (Except.error (RunError.unsupportedSystem info.system), [])

/-! ## Concrete regions and environments used by witnesses and
counterexamples -/

/-- The region `us-east-1`. -/
def use1 : Region := ⟨"us-east-1"⟩

/-- The region `us-west-2`. -/
def usw2 : Region := ⟨"us-west-2"⟩

/-- The region `eu-west-1`. -/
def euw1 : Region := ⟨"eu-west-1"⟩

/-- An environment where every remote call succeeds; the SSM directory
returns a single page listing the default region and one other region. -/
def env_ok : Env :=
  ⟨use1, true,
   [Except.ok ⟨some ["us-east-1", "us-west-2"], none⟩],
   Except.ok "snap-1", Except.ok (), Except.ok (some "ami-home"),
   Except.ok (),
   fun _ => Except.ok (some "ami-copy"),
   fun _ => Except.ok ()⟩

/-- An environment identical to `env_ok` except that the image-copy request
in `us-west-2` fails. -/
def env_copy_fail : Env :=
  ⟨use1, true, [],
   Except.ok "snap-1", Except.ok (), Except.ok (some "ami-home"),
   Except.ok (),
   fun r => if r = usw2 then Except.error "copy failed"
            else Except.ok (some "ami-copy"),
   fun _ => Except.ok ()⟩

/-! ## C1: root volume size -/

/-- C1 counterexample: the claim "the computed root volume size equals
ceil(logicalSizeBytes / 2^30) for every metadata" fails at
`logical_bytes = 2^64 - 1` (a valid `u64`, not a multiple of `2^30`): the
`u64` addition `logical_bytes + bytes_in_gb - 1` wraps, so the code computes
0 instead of `floor / 2^30 + 1 = 2^34`. -/
theorem C1_counterexample :
    (2 ^ 64 - 1) % bytes_in_gb ≠ 0 ∧
    ami_gbs none (2 ^ 64 - 1) = 0 ∧
    ami_gbs none (2 ^ 64 - 1) ≠ (2 ^ 64 - 1) / bytes_in_gb + 1 := by
  refine ⟨by decide, by decide, by decide⟩

/-- C1 (amended): whenever `logical_bytes + bytes_in_gb - 1` does not
overflow `u64`, the computed root size is the exact ceiling of
`logical_bytes / 2^30` — `floor + 1` for a non-multiple of `2^30` and the
exact quotient for a multiple — and a `--root-size` override is used
verbatim. -/
theorem C1_root_size (lb : Nat) (h : lb + bytes_in_gb - 1 < u64_size) :
    (ami_gbs none lb =
      if lb % bytes_in_gb = 0 then lb / bytes_in_gb
      else lb / bytes_in_gb + 1) ∧
    (∀ s, ami_gbs (some s) lb = s) := by
  constructor
  · have hg : 0 < bytes_in_gb := by norm_num [bytes_in_gb]
    show ((lb + bytes_in_gb - 1) % u64_size) / bytes_in_gb = _
    rw [Nat.mod_eq_of_lt h]
    obtain ⟨q, r, hr, hlb⟩ :
        ∃ q r, r < bytes_in_gb ∧ lb = bytes_in_gb * q + r :=
      ⟨lb / bytes_in_gb, lb % bytes_in_gb, Nat.mod_lt _ hg,
        (Nat.div_add_mod lb bytes_in_gb).symm⟩
    subst hlb
    by_cases h0 : r = 0
    · subst h0
      have e1 : bytes_in_gb * q + 0 + bytes_in_gb - 1 =
          (bytes_in_gb - 1) + bytes_in_gb * q := by omega
      rw [e1, Nat.add_mul_div_left _ _ hg,
        Nat.div_eq_of_lt (by omega : bytes_in_gb - 1 < bytes_in_gb)]
      simp [Nat.mul_add_mod, Nat.mul_div_cancel_left _ hg]
    · have e1 : bytes_in_gb * q + r + bytes_in_gb - 1 =
          (r - 1) + bytes_in_gb * (q + 1) := by
        rw [Nat.mul_succ]; omega
      rw [e1, Nat.add_mul_div_left _ _ hg,
        Nat.div_eq_of_lt (by omega : r - 1 < bytes_in_gb)]
      have e2 : (bytes_in_gb * q + r) % bytes_in_gb = r :=
        by rw [Nat.mul_add_mod, Nat.mod_eq_of_lt hr]
      have e3 : (bytes_in_gb * q + r) / bytes_in_gb = q := by
        rw [Nat.mul_add_div hg, Nat.div_eq_of_lt hr]
        omega
      rw [e2, e3, if_neg h0]
      omega
  · intro s; rfl

/-- C1 witness: one byte over 5 GiB is below the overflow bound and yields
6 GB (5 GiB would yield exactly 5). -/
theorem C1_witness :
    5368709121 + bytes_in_gb - 1 < u64_size ∧
    ((ami_gbs none 5368709121 =
      if 5368709121 % bytes_in_gb = 0 then 5368709121 / bytes_in_gb
      else 5368709121 / bytes_in_gb + 1) ∧
    (∀ s, ami_gbs (some s) 5368709121 = s)) :=
  ⟨by decide, C1_root_size 5368709121 (by decide)⟩

/-! ## C3: the home region is never a copy target -/

/-- C3: every member of the copy-target set differs from the home region —
`copy_regions` removes every occurrence of the home region, whatever the
resolved input list (in particular a list mentioning it several times). -/
theorem C3_home_not_in_copy_set (resolved : List Region)
    (initial_region r : Region)
    (h : r ∈ copy_regions resolved initial_region) : r ≠ initial_region := by
  have hm := List.mem_filter.mp h
  exact of_decide_eq_true hm.2

/-- C3 witness: with home region us-east-1 mentioned twice in the resolved
list, us-west-2 is in the copy set and differs from the home region. -/
theorem C3_witness :
    usw2 ∈ copy_regions ([use1, usw2, use1] : List Region) use1 ∧
    usw2 ≠ use1 :=
  ⟨by decide, C3_home_not_in_copy_set [use1, usw2, use1] use1 usw2 (by decide)⟩

/-! ## C4: duplicates in the replica set -/

/-- C4 counterexample: the explicit list `us-east-1,us-west-2,us-west-2`
resolves with the duplicate intact, and the copy-target set is
`[us-west-2, us-west-2]` — one copy request per occurrence — refuting the
claim that the replica collection never holds duplicates. -/
theorem C4_counterexample :
    region_resolve env_ok "us-east-1,us-west-2,us-west-2" =
      (Except.ok (use1, [use1, usw2, usw2]), []) ∧
    copy_regions [use1, usw2, usw2] use1 = [usw2, usw2] ∧
    ¬ (copy_regions [use1, usw2, usw2] use1).Nodup := by
  refine ⟨by decide, by decide, by decide⟩

/-- C4 (amended): the replica collection is the resolved list with the home
region filtered out, so it is duplicate-free whenever the resolved list
itself has no duplicates (the code never deduplicates: a repeated non-home
region yields one copy attempt per occurrence). -/
theorem C4_replicas_nodup (resolved : List Region) (initial_region : Region)
    (h : resolved.Nodup) :
    (copy_regions resolved initial_region).Nodup :=
  List.Nodup.filter _ h

/-- C4 witness: a duplicate-free resolved list yields a duplicate-free copy
set. -/
theorem C4_witness :
    ([use1, usw2] : List Region).Nodup ∧
    (copy_regions [use1, usw2] use1).Nodup :=
  ⟨by decide, C4_replicas_nodup _ _ (by decide)⟩

/-! ## C7: the empty region list -/

/-- C7 counterexample: with `--regions` set to the empty string the run fails
with the region-parse error, not `NoRegionsSpecified`: splitting the empty
string on commas yields one empty token, so the emptiness guard never fires
and the empty token fails region parsing instead. -/
theorem C7_counterexample :
    main_ env_ok ⟨none, "", none⟩ ⟨"25.05", "x86_64-linux", 1, "disk.raw"⟩ =
      (Except.error RunError.regionParseError, []) ∧
    RunError.regionParseError ≠ RunError.noRegionsSpecified := by
  refine ⟨by decide, by decide⟩

/-- C7 (amended): an empty region list is still rejected as a hard error
before any publishing — zero remote calls — but the error is the
region-parse error produced by the empty token, while the dedicated
`NoRegionsSpecified` guard is unreachable. -/
theorem C7_empty_regions_hard_error (env : Env) (args : Opt)
    (info : ImageInfo) (hsys : info.system = x86_system)
    (hdr : env.diskHeaderOk = true) (hreg : args.regions = "") :
    main_ env args info = (Except.error RunError.regionParseError, []) := by
  have h1 : region_resolve env "" =
      (Except.error RunError.regionParseError, []) := rfl
  simp [main_, hsys, hdr, hreg, h1]

/-- C7 witness: the amended statement at a concrete run. -/
theorem C7_witness :
    ("x86_64-linux" : String) = x86_system ∧ env_ok.diskHeaderOk = true ∧
    main_ env_ok ⟨none, "", none⟩ ⟨"25.05", "x86_64-linux", 2, "disk.raw"⟩ =
      (Except.error RunError.regionParseError, []) :=
  ⟨by decide, by decide,
    C7_empty_regions_hard_error env_ok ⟨none, "", none⟩
      ⟨"25.05", "x86_64-linux", 2, "disk.raw"⟩ rfl rfl rfl⟩

/-! ## C8: unsupported target system fails before any remote call -/

/-- C8: any metadata whose `system` field differs from `x86_64-linux` makes
the run fail with the unsupported-system error and an empty remote-call
trace: no remote side effect happens before input validation passes. -/
theorem C8_unsupported_system (env : Env) (args : Opt) (info : ImageInfo)
    (h : info.system ≠ x86_system) :
    main_ env args info =
      (Except.error (RunError.unsupportedSystem info.system), []) := by
  simp [main_, h]

/-- C8 witness: an `aarch64-linux` image is rejected with zero remote
calls. -/
theorem C8_witness :
    ("aarch64-linux" : String) ≠ x86_system ∧
    main_ env_ok ⟨none, "all", none⟩
        ⟨"25.05", "aarch64-linux", 1, "disk.raw"⟩ =
      (Except.error (RunError.unsupportedSystem "aarch64-linux"), []) :=
  ⟨by decide,
    C8_unsupported_system env_ok ⟨none, "all", none⟩
      ⟨"25.05", "aarch64-linux", 1, "disk.raw"⟩ (by decide)⟩

/-! ## C2: a replica copy failure aborts the whole fan-out -/

/-- C2 counterexample: with two replica regions where the first copy fails,
the fan-out does not record the failure and continue — it aborts with the
`could not copy ami to region` panic, never issues the second region's copy
request, and the run does not succeed. -/
theorem C2_counterexample :
    fan_out env_copy_fail "n" "ami-home" use1 "nm" [usw2, euw1]
        [("us-east-1", "ami-home")] =
      (Except.error (RunError.panic "could not copy ami to region"),
        [RemoteCall.copyImage usw2 "n" "ami-home" "us-east-1"]) ∧
    RemoteCall.copyImage euw1 "n" "ami-home" "us-east-1" ∉
      (fan_out env_copy_fail "n" "ami-home" use1 "nm" [usw2, euw1]
        [("us-east-1", "ami-home")]).2 := by
  refine ⟨by decide, by decide⟩

/-- C2 (amended): a failed copy request for a replica region aborts the
entire run via an unconditional panic: the remaining replica regions are not
attempted (the trace ends at the failing copy request) and no report is
produced. -/
theorem C2_copy_failure_aborts (env : Env) (an init_ami_id : String)
    (initial_region : Region) (nm : String) (r : Region)
    (rest : List Region) (amis : List (String × String)) (e : String)
    (h : env.copyResult r = Except.error e) :
    fan_out env an init_ami_id initial_region nm (r :: rest) amis =
      (Except.error (RunError.panic "could not copy ami to region"),
        [RemoteCall.copyImage r an init_ami_id initial_region.name]) := by
  simp [fan_out, h]

/-- C2 witness: the amended statement at a concrete failing environment. -/
theorem C2_witness :
    env_copy_fail.copyResult usw2 = Except.error "copy failed" ∧
    fan_out env_copy_fail "n2" "ami-home" use1 "nm2" [usw2] [] =
      (Except.error (RunError.panic "could not copy ami to region"),
        [RemoteCall.copyImage usw2 "n2" "ami-home" use1.name]) :=
  ⟨by decide,
    C2_copy_failure_aborts env_copy_fail "n2" "ami-home" use1 "nm2" usw2 []
      [] "copy failed" (by decide)⟩

/-! ## C6: the fan-out tags the home image id, not the new copy -/

/-- C6: on a successful replica copy the code issues `create_tags` with
`resources = [init_ami_id]` — the home image id — while the new copy's id
(`ami-copy`, recorded in the report) is never named by any tag request; the
design document says the newly created copy's id must be tagged. -/
theorem C6_fan_out_tags_home_id :
    fan_out env_ok "NixOS-25.05-x86_64-linux" "ami-home" use1
        "NixOS-25.05-x86_64-linux" [usw2] [("us-east-1", "ami-home")] =
      (Except.ok [("us-east-1", "ami-home"), ("us-west-2", "ami-copy")],
        [RemoteCall.copyImage usw2 "NixOS-25.05-x86_64-linux" "ami-home"
          "us-east-1",
         RemoteCall.createTags usw2 ["ami-home"] "NixOSName"
          "NixOS-25.05-x86_64-linux"]) ∧
    RemoteCall.createTags usw2 ["ami-copy"] "NixOSName"
        "NixOS-25.05-x86_64-linux" ∉
      (fan_out env_ok "NixOS-25.05-x86_64-linux" "ami-home" use1
        "NixOS-25.05-x86_64-linux" [usw2] [("us-east-1", "ami-home")]).2 := by
  refine ⟨by decide, by decide⟩

/-! ## C9: the home tag always carries the derived name -/

/-- C9: whenever the home publish succeeds, its trace contains a tag request
on the registered image whose value is the name derived from `label` and
`system` — for every caller-supplied name override (`name_arg` is arbitrary
here), independent of the display name. -/
theorem C9_home_tag_derived_name (env : Env) (name_arg : Option String)
    (root_size_arg : Option Nat) (info : ImageInfo)
    (initial_region : Region) (init_ami_id : String)
    (h : (home_publish env name_arg root_size_arg info initial_region).1 =
      Except.ok init_ami_id) :
    RemoteCall.createTags initial_region [init_ami_id] tag_key
        ("NixOS-" ++ info.label ++ "-" ++ info.system) ∈
      (home_publish env name_arg root_size_arg info initial_region).2 := by
  cases hu : env.uploadResult with
  | error e => simp [home_publish, hu] at h
  | ok snap =>
    cases hw : env.waitResult with
    | error e => simp [home_publish, hu, hw] at h
    | ok u =>
      cases hr : env.registerResult with
      | error e => simp [home_publish, hu, hw, hr] at h
      | ok o =>
        cases o with
        | none => simp [home_publish, hu, hw, hr] at h
        | some amiId =>
          cases ht : env.tagHomeResult with
          | error e => simp [home_publish, hu, hw, hr, ht] at h
          | ok v =>
            have hid : amiId = init_ami_id := by
              simpa [home_publish, hu, hw, hr, ht] using h
            subst hid
            simp [home_publish, hu, hw, hr, ht, nixos_name]

/-- C9 witness: with a caller-supplied display name the tag still carries
the derived name. -/
theorem C9_witness :
    (home_publish env_ok (some "custom-name") none
        ⟨"25.05", "x86_64-linux", 5368709121, "disk.raw"⟩ use1).1 =
      Except.ok "ami-home" ∧
    RemoteCall.createTags use1 ["ami-home"] tag_key
        ("NixOS-" ++ "25.05" ++ "-" ++ "x86_64-linux") ∈
      (home_publish env_ok (some "custom-name") none
        ⟨"25.05", "x86_64-linux", 5368709121, "disk.raw"⟩ use1).2 :=
  ⟨by decide,
    C9_home_tag_derived_name env_ok (some "custom-name") none
      ⟨"25.05", "x86_64-linux", 5368709121, "disk.raw"⟩ use1 "ami-home"
      (by decide)⟩

/-! ## C10: selector `all` publishes from the ambient default region -/

/-- C10: when the selector is `all`, a successful resolution designates the
ambient default region as home region, and the default region is never a
copy target — even when the directory lookup returned it. -/
theorem C10_all_home_is_default (env : Env) (initial_region : Region)
    (resolved : List Region) (tr : List RemoteCall)
    (h : region_resolve env "all" =
      (Except.ok (initial_region, resolved), tr)) :
    initial_region = env.defaultRegion ∧
    env.defaultRegion ∉ copy_regions resolved initial_region := by
  have e : region_resolve env "all" =
      (match resolve_all_regions env with
       | (Except.error err, tr2) => (Except.error err, tr2)
       | (Except.ok rs, tr2) =>
         (Except.ok (env.defaultRegion, rs), tr2)) := rfl
  rw [e] at h
  rcases hres : resolve_all_regions env with ⟨res, tr2⟩
  rw [hres] at h
  cases res with
  | error err => simp at h
  | ok rs =>
    simp at h
    refine ⟨h.1.1.symm, ?_⟩
    intro hmem
    have hne := of_decide_eq_true (List.mem_filter.mp hmem).2
    exact hne h.1.1

/-- C10 witness: with selector `all`, the directory returns the default
region itself plus one other; the home region is the default and the copy
set excludes it. -/
theorem C10_witness :
    region_resolve env_ok "all" =
      (Except.ok (use1, [use1, usw2]),
        [RemoteCall.getParametersByPath ssm_path none]) ∧
    (use1 = env_ok.defaultRegion ∧
      env_ok.defaultRegion ∉ copy_regions [use1, usw2] use1) :=
  ⟨by decide,
    C10_all_home_is_default env_ok use1 [use1, usw2]
      [RemoteCall.getParametersByPath ssm_path none] (by decide)⟩

/-! ## C5: pagination of `resolve_all_regions` -/

/-- An opaque continuation-token value used to build well-formed page
sequences. -/
def tok0 : String := "next-token"

/-- A well-formed `N`-page response sequence: every page carries its region
names and a continuation token, except the last page which carries none. -/
def mk_pages : List (List String) → List (Except String SsmPage)
  | [] => []
  | [vs] => [Except.ok ⟨some vs, none⟩]
  | vs :: vs2 :: rest =>
    Except.ok ⟨some vs, some tok0⟩ :: mk_pages (vs2 :: rest)

/-- A response prefix in which every page carries a continuation token (used
to place a failing request after `N` good pages). -/
def mk_tok_pages : List (List String) → List (Except String SsmPage)
  | [] => []
  | vs :: rest => Except.ok ⟨some vs, some tok0⟩ :: mk_tok_pages rest

/-- The trace of `n` successive `GetParametersByPath` requests, the first
carrying `tok` and the rest the continuation token. -/
def ssm_calls : Option String → Nat → List RemoteCall
  | _, 0 => []
  | tok, n + 1 =>
    RemoteCall.getParametersByPath ssm_path tok :: ssm_calls (some tok0) n

theorem ssm_calls_length : ∀ (tok : Option String) (n : Nat),
    (ssm_calls tok n).length = n
  | _, 0 => rfl
  | tok, n + 1 => by simp [ssm_calls, ssm_calls_length (some tok0) n]

theorem parse_regions_ok (vs : List String)
    (h : ∀ s ∈ vs, region_from_str s = Except.ok (region_of s)) :
    parse_regions vs = Except.ok (vs.map region_of) := by
  induction vs with
  | nil => rfl
  | cons s rest ih =>
    have hs : region_from_str s = Except.ok (region_of s) := h s (by simp)
    have hr := ih (fun x hx => h x (by simp [hx]))
    simp [parse_regions, hs, hr, Except.map]

theorem resolve_mk_pages (pagess : List (List String))
    (hne : pagess ≠ [])
    (h : ∀ vs ∈ pagess, ∀ s ∈ vs,
      region_from_str s = Except.ok (region_of s)) :
    ∀ tok, resolve_all_regions_go tok (mk_pages pagess) =
      (Except.ok (pagess.flatten.map region_of),
        ssm_calls tok pagess.length) := by
  induction pagess with
  | nil => exact absurd rfl hne
  | cons vs rest ih =>
    intro tok
    cases rest with
    | nil =>
      have hp := parse_regions_ok vs (fun s hs => h vs (by simp) s hs)
      simp [mk_pages, resolve_all_regions_go, hp, ssm_calls]
    | cons vs2 rest2 =>
      have hp := parse_regions_ok vs (fun s hs => h vs (by simp) s hs)
      have ih2 := ih (by simp) (fun v hv s hs => h v (by simp [hv]) s hs)
        (some tok0)
      simp [mk_pages, resolve_all_regions_go, hp, ih2, ssm_calls, Except.map]

theorem resolve_mk_tok_pages (pagess : List (List String)) (err : String)
    (h : ∀ vs ∈ pagess, ∀ s ∈ vs,
      region_from_str s = Except.ok (region_of s)) :
    ∀ tok, resolve_all_regions_go tok
        (mk_tok_pages pagess ++ [Except.error err]) =
      (Except.error (RunError.regionDiscoveryFailed err),
        ssm_calls tok (pagess.length + 1)) := by
  induction pagess with
  | nil =>
    intro tok
    simp [mk_tok_pages, resolve_all_regions_go, ssm_calls]
  | cons vs rest ih =>
    intro tok
    have hp := parse_regions_ok vs (fun s hs => h vs (by simp) s hs)
    have ih2 := ih (fun v hv s hs => h v (by simp [hv]) s hs) (some tok0)
    simp [mk_tok_pages, resolve_all_regions_go, hp, ih2, ssm_calls, Except.map]

/-- C5: for every well-formed `N`-page directory response (each page carrying
a continuation token except the last, every entry a parsable region name),
the resolver issues exactly `N` requests and returns the concatenation of all
pages, with the region count equal to the sum across pages; and if the
request after any `N`-page all-token prefix errors, the whole resolution
fails with `regionDiscoveryFailed`, discarding the pages already fetched (no
partial result is returned). -/
theorem C5_pagination (pagess : List (List String)) (err : String)
    (hne : pagess ≠ [])
    (h : ∀ vs ∈ pagess, ∀ s ∈ vs,
      region_from_str s = Except.ok (region_of s)) :
    (∀ tok, resolve_all_regions_go tok (mk_pages pagess) =
        (Except.ok (pagess.flatten.map region_of),
          ssm_calls tok pagess.length)) ∧
    (∀ tok, resolve_all_regions_go tok
        (mk_tok_pages pagess ++ [Except.error err]) =
        (Except.error (RunError.regionDiscoveryFailed err),
          ssm_calls tok (pagess.length + 1))) ∧
    (pagess.flatten.map region_of).length =
      (pagess.map List.length).sum ∧
    (∀ tok n, (ssm_calls tok n).length = n) :=
  ⟨resolve_mk_pages pagess hne h, resolve_mk_tok_pages pagess err h,
    by
      clear hne h
      induction pagess with
      | nil => simp
      | cons a t iht =>
        simp only [List.length_map] at iht
        simp only [List.flatten_cons, List.map_append, List.length_append,
          List.length_map, List.map_cons, List.sum_cons]
        omega,
    ssm_calls_length⟩

/-- The two-page directory response used by the C5 witness. -/
def pages_ex : List (List String) := [["us-east-1"], ["us-west-2", "eu-west-1"]]

/-- C5 witness: a two-page response yields two requests and the three regions
of both pages; placing an error after a two-page all-token prefix fails the
resolution with three requests issued and no partial result. -/
theorem C5_witness :
    pages_ex ≠ [] ∧
    resolve_all_regions_go none (mk_pages pages_ex) =
      (Except.ok (pages_ex.flatten.map region_of),
        ssm_calls none pages_ex.length) ∧
    resolve_all_regions_go none
        (mk_tok_pages pages_ex ++ [Except.error "boom"]) =
      (Except.error (RunError.regionDiscoveryFailed "boom"),
        ssm_calls none (pages_ex.length + 1)) :=
  ⟨by decide,
   (C5_pagination pages_ex "boom" (by decide) (by decide)).1 none,
   (C5_pagination pages_ex "boom" (by decide) (by decide)).2.1 none⟩
